import Mathlib

/-!
Verification development for the PDFs_parsing repository.

Part 1 embeds `src/Exploratory/compare_files.py` (the keyed table differ)
as a shallow embedding: pandas DataFrames become lists of rows of optional
strings (`none` is NaN, every loaded cell is a string because the loader
uses `dtype=str`), and the pandas operations the script uses
(`set_index`, `sort_index`, `DataFrame.compare` with `align_axis=0`,
`Series.get`, `pd.notna`) are translated to Lean functions following the
pandas semantics the script relies on.

Part 2 embeds the title-inference and title-deduplication loop of
`extract_tables` from `src/pdf_table_extractor.py` /
`src/pdf_table_extractor_to_json.py` (both files contain the identical
logic), treating the external PDF libraries (pdfplumber, tabula) as
collaborators whose per-page outputs are inputs to the function.

Part 3 embeds `extract_metadata` from `src/pdf_table_extractor_to_json.py`,
treating the Python regex engine as an external collaborator (an oracle of
search functions applied to the extracted full text).
-/

/-- Whitespace predicate used by Python str.strip (the common whitespace
characters). -/
def isPySpace (c : Char) : Bool :=
  c = ' ' || c = '\t' || c = '\n' || c = '\r' || c = '\x0b' || c = '\x0c'

/-- Python str.strip(): drop leading and trailing whitespace. -/
def pyStrip (s : String) : String :=
  String.mk (((s.data.dropWhile isPySpace).reverse.dropWhile isPySpace).reverse)

namespace CompareFiles

/-- A pandas cell as loaded with `dtype=str`: a string, or NaN (`none`).
`read_csv(..., dtype=str)` leaves missing fields as NaN, so absent and
empty string are distinct values. -/
abbrev Cell := Option String

/-- A loaded DataFrame: ordered column names, and rows whose cells are
positionally aligned with the column list. -/
structure DataFrame where
  columns : List String
  rows : List (List Cell)
  deriving Repr, DecidableEq

/-- KEY_COLS from compare_files.py line 9. -/
def KEY_COLS : List String := ["HQ_CODE", "ID", "MBR_NO"]

/-- TAB_SEP from compare_files.py line 10. -/
def TAB_SEP : String := "\t"

/-- The state of one path on disk, as observed by load_data_file: the file
is absent, unreadable (read_csv raises), or parses to a DataFrame (the
tab-separated parse after the caller's skiprows, with dtype=str; the
parsing itself is done by the external pandas reader). -/
inductive Source where
  | missing
  | unreadable
  | ok (df : DataFrame)
  deriving Repr, DecidableEq

/-- Column-name cleaning at compare_files.py line 34:
df.columns = df.columns.str.strip(). -/
def stripCols (df : DataFrame) : DataFrame :=
  { columns := df.columns.map pyStrip, rows := df.rows }

/-- load_data_file (compare_files.py lines 22-38): a missing file and a
read error both print a message naming the path and yield None; a
successful read yields the DataFrame with stripped column names. -/
def load_data_file (s : Source) : Option DataFrame :=
  match s with
  | .missing => none
  | .unreadable => none
  | .ok df => some (stripCols df)

/-- Cell of a positional row under a column name (first matching column),
NaN when the name is absent or the row is short. -/
def cellAt (cols : List String) (row : List Cell) (c : String) : Cell :=
  match List.indexOf? c cols with
  | some i => row.getD i none
  | none => none

/-- A DataFrame indexed by the key tuple: remaining column names, and rows
as (key tuple, non-key cells). -/
structure KeyedFrame where
  columns : List String
  rows : List (List Cell × List Cell)
  deriving Repr, DecidableEq

/-- pandas DataFrame.set_index(keys) as used at compare_files.py lines
71-72: raises KeyError (here: `none`) when some key column is absent;
otherwise moves the key columns into the index, keeping the remaining
columns in order.  Duplicate or NaN key values are NOT checked. -/
def set_index (keys : List String) (df : DataFrame) : Option KeyedFrame :=
  if ∀ k ∈ keys, k ∈ df.columns then
    some
      { columns := df.columns.filter (fun c => decide (c ∉ keys)),
        rows := df.rows.map (fun r =>
          (keys.map (fun k => cellAt df.columns r k),
           (df.columns.zip r).filterMap
             (fun p => if p.1 ∈ keys then none else some p.2))) }
  else
    none

/-- Strict lexicographic order on character lists (Python / pandas string
order, by code point). -/
def charListLt : List Char → List Char → Bool
  | [], [] => false
  | [], _ :: _ => true
  | _ :: _, [] => false
  | a :: as, b :: bs => if a = b then charListLt as bs else decide (a < b)

/-- Strict string order by code points, as pandas sorts str cells. -/
def strLt (s t : String) : Bool := charListLt s.data t.data

/-- Strict order on cells with NaN sorted last (pandas na_position
default). -/
def cellLt : Cell → Cell → Bool
  | some a, some b => strLt a b
  | some _, none => true
  | none, _ => false

/-- Lexicographic (non-strict) order on key tuples, over the key columns
in order. -/
def keyLe : List Cell → List Cell → Bool
  | [], _ => true
  | _ :: _, [] => false
  | a :: as, b :: bs => if a = b then keyLe as bs else cellLt a b

/-- Row order used by sort_index: compare the key tuples. -/
def rowLe (x y : List Cell × List Cell) : Prop := keyLe x.1 y.1 = true

instance : DecidableRel rowLe :=
  fun x y => inferInstanceAs (Decidable (keyLe x.1 y.1 = true))

/-- pandas sort_index() at compare_files.py lines 71-72: sort the rows by
key tuple ascending (modelled with a stable sort). -/
def sort_index (kf : KeyedFrame) : KeyedFrame :=
  { columns := kf.columns, rows := List.insertionSort rowLe kf.rows }

/-- Cell-level difference mask of pandas DataFrame.compare: a cell differs
unless the two values are equal strings or both are NaN. -/
def cellDiff : Cell → Cell → Bool
  | none, none => false
  | some x, some y => !(x == y)
  | _, _ => true

/-- The result frame of DataFrame.compare(..., align_axis=0): kept column
labels (a flat, single-level index) and, per kept input row, two stacked
rows tagged "self" and "other", whose key is the input key tuple.  Cells
equal on both sides are masked to NaN (keep_equal=False). -/
structure DiffFrame where
  columns : List String
  rows : List (List Cell × String × List Cell)
  deriving Repr, DecidableEq

/-- Difference of one aligned row pair at column position j. -/
def diffAt (rb ra : List Cell) (j : Nat) : Bool :=
  cellDiff (rb.getD j none) (ra.getD j none)

/-- Column positions DataFrame.compare keeps: those with at least one
differing aligned row pair. -/
def keptIdx (kb ka : KeyedFrame) : List Nat :=
  (List.range kb.columns.length).filter
    (fun j => (kb.rows.zip ka.rows).any (fun p => diffAt p.1.2 p.2.2 j))

/-- Aligned row pairs DataFrame.compare keeps: those with at least one
differing cell. -/
def keptPairs (kb ka : KeyedFrame) :
    List ((List Cell × List Cell) × (List Cell × List Cell)) :=
  (kb.rows.zip ka.rows).filter
    (fun p => (List.range kb.columns.length).any (fun j => diffAt p.1.2 p.2.2 j))

/-- Rows of the compare result under align_axis=0: each kept row pair
stacked as a "self" row then an "other" row, restricted to the kept
columns, equal cells masked to NaN (keep_equal=False). -/
def stackedRows (kb ka : KeyedFrame) : List (List Cell × String × List Cell) :=
  (keptPairs kb ka).flatMap (fun p =>
    [ (p.1.1, "self",
       (keptIdx kb ka).map (fun j => if diffAt p.1.2 p.2.2 j then p.1.2.getD j none else none)),
      (p.1.1, "other",
       (keptIdx kb ka).map (fun j => if diffAt p.1.2 p.2.2 j then p.2.2.getD j none else none)) ])

/-- pandas DataFrame.compare(other, align_axis=0) as called at
compare_files.py line 78: raises ValueError (here: `.error ()`) unless the
two frames are identically labeled (same columns, same index values in the
same order); otherwise keeps only the rows and columns with at least one
difference. -/
def pandasCompare (kb ka : KeyedFrame) : Except Unit DiffFrame :=
  if kb.columns = ka.columns ∧ kb.rows.map Prod.fst = ka.rows.map Prod.fst then
    Except.ok
      { columns := (keptIdx kb ka).map (fun j => kb.columns.getD j ""),
        rows := stackedRows kb ka }
  else
    Except.error ()

/-- A pandas label as a dynamically typed Python value: the flat string
labels df_diff.columns carries under align_axis=0, or the (column, side)
tuples the formatting loop asks for. -/
inductive PyLabel where
  | str (s : String)
  | pair (a b : String)
  deriving Repr, DecidableEq

/-- pandas Series.get(key, default=None): the value under the label, or
None when the label is not in the index (a tuple key on a flat index
raises KeyError internally, which get turns into the default). -/
def seriesGet (idx : List PyLabel) (vals : List Cell) (key : PyLabel) : Option Cell :=
  match List.indexOf? key idx with
  | some i => some (vals.getD i none)
  | none => none

/-- pd.notna applied to the result of Series.get: False on Python None and
on NaN. -/
def pdNotna : Option Cell → Bool
  | some (some _) => true
  | _ => false

/-- Python str() of a cell inside an f-string: the string itself, or "nan"
for NaN. -/
def cellStr : Cell → String
  | some s => s
  | none => "nan"

/-- The per-column field output of compare_files.py lines 94-105: present
only when at least one side is notna. -/
def fieldOutput (colName : String) (vb va : Option Cell) : Option String :=
  if pdNotna vb || pdNotna va then
    some (colName ++ ":"
      ++ (if pdNotna vb then "**>>BEFORE:" ++ cellStr (vb.getD none) ++ "<<**" else "")
      ++ (if pdNotna va then
            (if pdNotna vb then " | " else "") ++ "**>>AFTER:" ++ cellStr (va.getD none) ++ "<<**"
          else ""))
  else
    none

/-- The field parts of one formatted row: iterate
df_diff.columns.get_level_values(0).unique() and look the (column, side)
tuples up in the row, whose index is the flat df_diff.columns. -/
def fieldParts (dcols : List String) (vals : List Cell) : List String :=
  (dcols.eraseDups).filterMap (fun c =>
    fieldOutput c
      (seriesGet (dcols.map PyLabel.str) vals (PyLabel.pair c "self"))
      (seriesGet (dcols.map PyLabel.str) vals (PyLabel.pair c "other")))

/-- One KEY part of an output row (compare_files.py line 88). -/
def keyPart (kv : String × Cell) : String := "KEY:" ++ kv.1 ++ "=" ++ cellStr kv.2

/-- One formatted output row (compare_files.py lines 87-107): the KEY
parts (zip of KEY_COLS with the row's index tuple, which truncates away
the self/other level) followed by the field parts, joined by TAB_SEP. -/
def formatDiffRow (dcols : List String) (key : List Cell) (vals : List Cell) : String :=
  String.intercalate TAB_SEP ((KEY_COLS.zip key).map keyPart ++ fieldParts dcols vals)

/-- output_rows of compare_files.py lines 87-107: one line per df_diff row,
in df_diff row order. -/
def outputRows (d : DiffFrame) : List String :=
  d.rows.map (fun r => formatDiffRow d.columns r.1 r.2.2)

/-- os.path.basename for the forward-slash paths used here. -/
def basename (p : String) : String :=
  String.mk ((p.data.reverse.takeWhile (fun c => !(c = '/'))).reverse)

/-- The observable outcome of one run_comparison_test call: which branch
of compare_files.py lines 41-116 the run ends in.  uncaughtValueError is a
ValueError escaping DataFrame.compare, which no handler in the script
catches. -/
inductive Outcome where
  | sourceUnavailable (paths : List String)
  | rowCountMismatch (beforeName : String) (beforeRows : Nat) (afterName : String) (afterRows : Nat)
  | keyColumnError (cols : List String)
  | uncaughtValueError
  | differencesFound (rows : List String)
  | noDifferences
  deriving Repr, DecidableEq

/-- One comparison job from config.json (name, before_path, after_path). -/
structure TestCase where
  name : String
  beforePath : String
  afterPath : String
  deriving Repr, DecidableEq

/-- run_comparison_test (compare_files.py lines 41-116) over a file system
mapping paths to their Source state.  The before file is loaded with
skiprows=1 and the after file with skiprows=0; the skipping happens inside
the external reader, so it is part of the Source's parsed DataFrame. -/
def run_comparison_test (fileOf : String → Source) (tc : TestCase) : Outcome :=
  match load_data_file (fileOf tc.beforePath), load_data_file (fileOf tc.afterPath) with
  | none, none => .sourceUnavailable [tc.beforePath, tc.afterPath]
  | none, some _ => .sourceUnavailable [tc.beforePath]
  | some _, none => .sourceUnavailable [tc.afterPath]
  | some db, some da =>
    if db.rows.length ≠ da.rows.length then
      .rowCountMismatch (basename tc.beforePath) db.rows.length
        (basename tc.afterPath) da.rows.length
    else
      match set_index KEY_COLS db, set_index KEY_COLS da with
      | some kb, some ka =>
        match pandasCompare (sort_index kb) (sort_index ka) with
        | .ok d =>
          match outputRows d with
          | [] => .noDifferences
          | r :: rs => .differencesFound (r :: rs)
        | .error _ => .uncaughtValueError
      | _, _ => .keyColumnError KEY_COLS

/-- The batch loop of main (compare_files.py lines 128-132): one
run_comparison_test per job; every outcome the script handles lets the
loop continue, but an uncaught ValueError aborts the whole batch. -/
def runBatch (fileOf : String → Source) : List TestCase → List Outcome
  | [] => []
  | tc :: rest =>
    match run_comparison_test fileOf tc with
    | .uncaughtValueError => [.uncaughtValueError]
    | o => o :: runBatch fileOf rest

/-- The set of (key tuple, column, before value, after value) cells the
comparison at compare_files.py line 78 flags as differing, in row-major
order: the mask of pandas DataFrame.compare over the aligned frames. -/
def diffCells (kb ka : KeyedFrame) : List (List Cell × String × Cell × Cell) :=
  (kb.rows.zip ka.rows).flatMap (fun p =>
    (List.range kb.columns.length).filterMap (fun j =>
      if diffAt p.1.2 p.2.2 j then
        some (p.1.1, kb.columns.getD j "", p.1.2.getD j none, p.2.2.getD j none)
      else
        none))

end CompareFiles

namespace PdfTables

/-- A table as returned by tabula.read_pdf for one page: whether the value
is actually a pandas DataFrame, its column names (already stringified),
and its rows of possibly-NaN cells. -/
structure RawTable where
  isDf : Bool
  columns : List String
  rows : List (List (Option String))
  deriving Repr, DecidableEq

/-- pandas df.empty: some axis has length zero. -/
def tableEmpty (t : RawTable) : Bool := t.rows.isEmpty || t.columns.isEmpty

/-- table.dropna(how='all').reset_index(drop=True): drop the rows whose
cells are all NaN. -/
def dropnaAll (t : RawTable) : RawTable :=
  { t with rows := t.rows.filter (fun r => r.any (fun c => c.isSome)) }

/-- One page as the external libraries hand it to extract_tables: the
tabula tables of the page, the top coordinate of each pdfplumber-detected
table (in detection order), and the text lines of the page keyed by their
rounded y position (the line_texts map of pdf_table_extractor.py lines
108-114; pdfplumber's float geometry is abstracted to integer
coordinates). -/
structure Page where
  pageTables : List RawTable
  detectedTops : List Int
  lineTexts : List (Int × String)
  deriving Repr, DecidableEq

/-- Geometry-based title inference (pdf_table_extractor.py lines 124-133):
when the page has detected tables and more of them than idx, take the text
lines strictly above the idx-th table's top and within 120 units of it,
and use the nearest (maximal y) one, stripped; otherwise the empty
title. -/
def inferTitleGeom (page : Page) (idx : Nat) : String :=
  if page.detectedTops ≠ [] ∧ idx < page.detectedTops.length then
    let top := page.detectedTops.getD idx 0
    let above := page.lineTexts.filter (fun yt => decide (yt.1 < top ∧ top - yt.1 < 120))
    match (above.map Prod.fst).max? with
    | some y =>
      match above.lookup y with
      | some txt => pyStrip txt
      | none => ""
    | none => ""
  else
    ""

/-- re.search(r"[A-Za-z]", s) succeeds: s has an ASCII letter. -/
def containsAlpha (s : String) : Bool := s.data.any (fun c => c.isAlpha)

/-- The inferred title of the idx-th table of a page (pdf_table_extractor.py
lines 124-143): the geometry-based title; when empty, the first column
name when it contains a letter; otherwise the positional fallback name
Table_pageNum_(idx+1). -/
def titleOf (pageNum : Nat) (page : Page) (idx : Nat) (t : RawTable) : String :=
  let title0 := inferTitleGeom page idx
  if title0 = "" then
    let possible := t.columns.getD 0 ""
    if containsAlpha possible then possible
    else "Table_" ++ toString pageNum ++ "_" ++ toString (idx + 1)
  else title0

/-- One iteration of the inner table loop (pdf_table_extractor.py lines
116-149): skip non-DataFrames and empty tables, drop all-NaN rows, infer
the title, and drop the table when the title was already seen in this
document; otherwise record the title as seen and append the table.  State
is (seen titles, accumulated output). -/
def tableStep (pageNum : Nat) (page : Page)
    (st : List String × List (String × RawTable)) (it : Nat × RawTable) :
    List String × List (String × RawTable) :=
  if !it.2.isDf || tableEmpty it.2 then st
  else
    let title := titleOf pageNum page it.1 (dropnaAll it.2)
    if title ∈ st.1 then st
    else (title :: st.1, st.2 ++ [(title, dropnaAll it.2)])

/-- One iteration of the page loop (pdf_table_extractor.py lines 101-149):
a page with no tabula tables is skipped; otherwise the table loop runs
over the enumerated tables.  The seen-titles state flows across pages. -/
def pageStep (st : List String × List (String × RawTable)) (pp : Nat × Page) :
    List String × List (String × RawTable) :=
  if pp.2.pageTables.isEmpty then st
  else pp.2.pageTables.enum.foldl (tableStep pp.1 pp.2) st

/-- extract_tables (pdf_table_extractor.py lines 94-155; the loop of
pdf_table_extractor_to_json.py lines 96-162 is identical in structure):
fold the page loop over the document's pages, enumerated from 1, starting
from an empty seen-titles set and an empty result, and return the
accumulated (title, table) list. -/
def extract_tables (pages : List Page) : List (String × RawTable) :=
  ((pages.enumFrom 1).foldl pageStep ([], [])).2

end PdfTables

namespace PdfJson

/-- Regex collaborators of extract_metadata
(pdf_table_extractor_to_json.py lines 68-88), as functions of the
extracted full text: the captured group each re.search hands back when it
matches (group(1) for AUDIT ID / NCPDP / Date, group(0) for the address
block and the subject line), and the re.sub-based address cleanup of
lines 81-83. -/
structure RegexOracle where
  auditSearch : String → Option String
  ncpdpSearch : String → Option String
  dateSearch : String → Option String
  addrSearch : String → Option String
  subjSearch : String → Option String
  addrCleanup : String → String

/-- Outcome of pdfplumber.open and the page iteration inside the
with-block: an exception anywhere inside the try body, or the per-page
extract_text results (None for a page without extractable text). -/
inductive OpenResult where
  | raises
  | pages (texts : List (Option String))

/-- The metadata dict initialized at pdf_table_extractor_to_json.py lines
55-61, as an ordered association list. -/
def emptyMetadata : List (String × String) :=
  [("AUDIT ID", ""), ("NCPDP", ""), ("Date", ""), ("Address", ""), ("Subject", "")]

/-- Python dict assignment to an existing key: update the value in place,
keeping insertion order. -/
def setKey (m : List (String × String)) (k v : String) : List (String × String) :=
  m.map (fun p => if p.1 = k then (k, v) else p)

/-- extract_metadata (pdf_table_extractor_to_json.py lines 53-93): return
the initialized dict when the document has no pages or anything raises,
and otherwise fill the five fields from the regex matches over the joined
page texts ("" substituted for pages without text). -/
def extract_metadata (rx : RegexOracle) (doc : OpenResult) : List (String × String) :=
  match doc with
  | .raises => emptyMetadata
  | .pages texts =>
    if texts.isEmpty then emptyMetadata
    else
      let full_text := String.intercalate "\n" (texts.map (fun t => t.getD ""))
      let m := emptyMetadata
      let m := setKey m "AUDIT ID" (((rx.auditSearch full_text).map pyStrip).getD "")
      let m := setKey m "NCPDP" (((rx.ncpdpSearch full_text).map pyStrip).getD "")
      let m := setKey m "Date" (((rx.dateSearch full_text).map pyStrip).getD "")
      let m :=
        match rx.addrSearch full_text with
        | some a => setKey m "Address" (rx.addrCleanup a)
        | none => m
      let m :=
        match rx.subjSearch full_text with
        | some s => setKey m "Subject" (pyStrip s)
        | none => m
      m

end PdfJson

namespace CompareFiles

lemma charListLt_irrefl (l : List Char) : charListLt l l = false := by
  induction l with
  | nil => rfl
  | cons a as ih => simp [charListLt, ih]

lemma charListLt_trans : ∀ {a b c : List Char},
    charListLt a b = true → charListLt b c = true → charListLt a c = true := by
  intro a
  induction a with
  | nil =>
    intro b c hab hbc
    cases b with
    | nil => simp [charListLt] at hab
    | cons y ys =>
      cases c with
      | nil => simp [charListLt] at hbc
      | cons z zs => rfl
  | cons x xs ih =>
    intro b c hab hbc
    cases b with
    | nil => simp [charListLt] at hab
    | cons y ys =>
      cases c with
      | nil => simp [charListLt] at hbc
      | cons z zs =>
        simp only [charListLt] at hab hbc ⊢
        by_cases hxy : x = y
        · subst hxy
          by_cases hxz : x = z
          · subst hxz
            simp only [if_pos rfl] at hab hbc ⊢
            exact ih hab hbc
          · by_cases hyz : x = z
            · exact absurd hyz hxz
            · simp only [if_pos rfl] at hab
              simp only [if_neg hxz] at hbc ⊢
              exact hbc
        · by_cases hyz : y = z
          · subst hyz
            simp only [if_neg hxy] at hab ⊢
            exact hab
          · simp only [if_neg hxy] at hab
            simp only [if_neg hyz] at hbc
            have hlt : x < z := lt_trans (of_decide_eq_true hab) (of_decide_eq_true hbc)
            have hne : x ≠ z := ne_of_lt hlt
            simp [if_neg hne, hlt]

lemma charListLt_total : ∀ {a b : List Char}, a ≠ b →
    charListLt a b = true ∨ charListLt b a = true := by
  intro a
  induction a with
  | nil =>
    intro b hne
    cases b with
    | nil => exact absurd rfl hne
    | cons y ys => exact Or.inl rfl
  | cons x xs ih =>
    intro b hne
    cases b with
    | nil => exact Or.inr rfl
    | cons y ys =>
      by_cases hxy : x = y
      · subst hxy
        have hts : xs ≠ ys := by
          intro h
          exact hne (by rw [h])
        rcases ih hts with h | h
        · exact Or.inl (by simp [charListLt, h])
        · exact Or.inr (by simp [charListLt, h])
      · rcases lt_or_gt_of_ne hxy with h | h
        · exact Or.inl (by simp [charListLt, if_neg hxy, h])
        · refine Or.inr ?_
          have hyx : y ≠ x := Ne.symm hxy
          simp [charListLt, if_neg hyx, h]

lemma strLt_trans {a b c : String} (h1 : strLt a b = true) (h2 : strLt b c = true) :
    strLt a c = true :=
  charListLt_trans h1 h2

lemma strLt_total {a b : String} (h : a ≠ b) : strLt a b = true ∨ strLt b a = true := by
  have : a.data ≠ b.data := fun hd => h (String.ext hd)
  exact charListLt_total this

lemma strLt_irrefl (a : String) : strLt a a = false := charListLt_irrefl a.data

lemma cellLt_trans : ∀ {a b c : Cell},
    cellLt a b = true → cellLt b c = true → cellLt a c = true := by
  intro a b c hab hbc
  cases a <;> cases b <;> cases c <;> simp_all [cellLt]
  exact strLt_trans hab hbc

lemma cellLt_total : ∀ {a b : Cell}, a ≠ b → cellLt a b = true ∨ cellLt b a = true := by
  intro a b hne
  cases a with
  | none =>
    cases b with
    | none => exact absurd rfl hne
    | some t => exact Or.inr rfl
  | some s =>
    cases b with
    | none => exact Or.inl rfl
    | some t =>
      have hst : s ≠ t := by
        intro h
        exact hne (by rw [h])
      exact strLt_total hst

lemma cellLt_irrefl (a : Cell) : cellLt a a = false := by
  cases a with
  | none => rfl
  | some s => exact strLt_irrefl s

lemma keyLe_refl (k : List Cell) : keyLe k k = true := by
  induction k with
  | nil => rfl
  | cons a as ih => simp [keyLe, ih]

lemma keyLe_total : ∀ (a b : List Cell), keyLe a b = true ∨ keyLe b a = true := by
  intro a
  induction a with
  | nil => intro b; exact Or.inl rfl
  | cons x xs ih =>
    intro b
    cases b with
    | nil => exact Or.inr rfl
    | cons y ys =>
      by_cases hxy : x = y
      · subst hxy
        rcases ih ys with h | h
        · exact Or.inl (by simp [keyLe, h])
        · exact Or.inr (by simp [keyLe, h])
      · rcases cellLt_total hxy with h | h
        · exact Or.inl (by simp [keyLe, if_neg hxy, h])
        · refine Or.inr ?_
          have hyx : y ≠ x := Ne.symm hxy
          simp [keyLe, if_neg hyx, h]

lemma keyLe_trans : ∀ {a b c : List Cell},
    keyLe a b = true → keyLe b c = true → keyLe a c = true := by
  intro a
  induction a with
  | nil => intro b c _ _; rfl
  | cons x xs ih =>
    intro b c hab hbc
    cases b with
    | nil => simp [keyLe] at hab
    | cons y ys =>
      cases c with
      | nil => simp [keyLe] at hbc
      | cons z zs =>
        simp only [keyLe] at hab hbc ⊢
        by_cases hxy : x = y
        · subst hxy
          by_cases hxz : x = z
          · subst hxz
            simp only [if_pos rfl] at hab hbc ⊢
            exact ih hab hbc
          · simp only [if_pos rfl] at hab
            simp only [if_neg hxz] at hbc ⊢
            exact hbc
        · by_cases hyz : y = z
          · subst hyz
            simp only [if_neg hxy] at hab ⊢
            exact hab
          · simp only [if_neg hxy] at hab
            simp only [if_neg hyz] at hbc
            have hlt : cellLt x z = true := cellLt_trans hab hbc
            have hne : x ≠ z := by
              intro h
              subst h
              have := cellLt_trans hab hbc
              rw [cellLt_irrefl] at this
              exact Bool.false_ne_true this
            simp [if_neg hne, hlt]

instance : IsTotal (List Cell × List Cell) rowLe :=
  ⟨fun x y => keyLe_total x.1 y.1⟩

instance : IsTrans (List Cell × List Cell) rowLe :=
  ⟨fun _ _ _ hxy hyz => keyLe_trans hxy hyz⟩

lemma cellDiff_self (a : Cell) : cellDiff a a = false := by
  cases a <;> simp [cellDiff]

lemma cellDiff_comm (a b : Cell) : cellDiff a b = cellDiff b a := by
  cases a with
  | none => cases b <;> rfl
  | some x =>
    cases b with
    | none => rfl
    | some y =>
      by_cases h : x = y
      · subst h; rfl
      · have h1 : (x == y) = false := beq_eq_false_iff_ne.mpr h
        have h2 : (y == x) = false := beq_eq_false_iff_ne.mpr (Ne.symm h)
        simp [cellDiff, h1, h2]

lemma diffAt_self (r : List Cell) (j : Nat) : diffAt r r j = false := by
  simp [diffAt, cellDiff_self]

lemma diffAt_comm (rb ra : List Cell) (j : Nat) : diffAt rb ra j = diffAt ra rb j := by
  simp [diffAt, cellDiff_comm]

end CompareFiles

namespace CompareFiles

lemma zip_self {α : Type} (l : List α) : l.zip l = l.map (fun a => (a, a)) := by
  induction l with
  | nil => rfl
  | cons a as ih => simpa [List.zip_cons_cons] using ih

lemma keptIdx_self (x : KeyedFrame) : keptIdx x x = [] := by
  unfold keptIdx
  rw [List.filter_eq_nil_iff]
  intro j _
  rw [zip_self]
  intro hc
  rcases List.any_eq_true.mp hc with ⟨p, hp, hdiff⟩
  rcases List.mem_map.mp hp with ⟨a, _, rfl⟩
  rw [diffAt_self] at hdiff
  exact Bool.false_ne_true hdiff

lemma keptPairs_self (x : KeyedFrame) : keptPairs x x = [] := by
  unfold keptPairs
  rw [List.filter_eq_nil_iff]
  intro p hp
  rw [zip_self] at hp
  rcases List.mem_map.mp hp with ⟨a, _, rfl⟩
  simp [diffAt_self]

lemma pandasCompare_self (x : KeyedFrame) :
    pandasCompare x x = Except.ok ⟨[], []⟩ := by
  unfold pandasCompare
  rw [if_pos ⟨rfl, rfl⟩]
  rw [keptIdx_self]
  unfold stackedRows
  rw [keptPairs_self]
  rfl

end CompareFiles

namespace CompareFiles

lemma diffCells_flat_swap (cols : List String) :
    ∀ (l1 l2 : List (List Cell × List Cell)), l1.map Prod.fst = l2.map Prod.fst →
    (l2.zip l1).flatMap (fun p => (List.range cols.length).filterMap (fun j =>
        if diffAt p.1.2 p.2.2 j then
          some (p.1.1, cols.getD j "", p.1.2.getD j none, p.2.2.getD j none)
        else none))
    = ((l1.zip l2).flatMap (fun p => (List.range cols.length).filterMap (fun j =>
        if diffAt p.1.2 p.2.2 j then
          some (p.1.1, cols.getD j "", p.1.2.getD j none, p.2.2.getD j none)
        else none))).map (fun t => (t.1, t.2.1, t.2.2.2, t.2.2.1)) := by
  intro l1
  induction l1 with
  | nil =>
    intro l2 h
    have h2 : l2 = [] := by simpa using h.symm
    subst h2
    rfl
  | cons x xs ih =>
    intro l2 h
    cases l2 with
    | nil => simp at h
    | cons y ys =>
      simp only [List.map_cons, List.cons.injEq] at h
      obtain ⟨hx, htl⟩ := h
      simp only [List.zip_cons_cons, List.flatMap_cons, List.map_append]
      rw [ih ys htl]
      congr 1
      rw [List.map_filterMap]
      apply List.filterMap_congr
      intro j _
      rw [diffAt_comm y.2 x.2]
      by_cases hd : diffAt x.2 y.2 j = true
      · simp [hd, hx]
      · rw [Bool.not_eq_true] at hd
        simp [hd]

lemma pairwise_keyLe_flatMap {β : Type} (F : β → List Cell)
    (G : β → List (List Cell × String × List Cell))
    (hG : ∀ b r, r ∈ G b → r.1 = F b) :
    ∀ l : List β, List.Pairwise (fun p q => keyLe (F p) (F q) = true) l →
      List.Pairwise (fun r s => keyLe r.1 s.1 = true) (l.flatMap G) := by
  intro l hl
  induction hl with
  | nil => simp
  | cons hb _ ih =>
    rw [List.flatMap_cons, List.pairwise_append]
    refine ⟨?_, ih, ?_⟩
    · apply List.pairwise_of_forall_mem_list
      intro r hr s hs
      rw [hG _ _ hr, hG _ _ hs]
      exact keyLe_refl _
    · intro r hr s hs
      rcases List.mem_flatMap.mp hs with ⟨q, hq, hsq⟩
      rw [hG _ _ hr, hG _ _ hsq]
      exact hb q hq

lemma keptPairs_pairwise (kb ka : KeyedFrame)
    (hk : (sort_index kb).rows.map Prod.fst = (sort_index ka).rows.map Prod.fst) :
    List.Pairwise (fun p q => keyLe p.1.1 q.1.1 = true)
      (keptPairs (sort_index kb) (sort_index ka)) := by
  have hs : List.Pairwise rowLe (sort_index kb).rows :=
    List.sorted_insertionSort rowLe kb.rows
  have hlen : (sort_index kb).rows.length ≤ (sort_index ka).rows.length := by
    have hh := congrArg List.length hk
    simp only [List.length_map] at hh
    exact le_of_eq hh
  have hfst : ((sort_index kb).rows.zip (sort_index ka).rows).map Prod.fst
      = (sort_index kb).rows := List.map_fst_zip _ _ hlen
  have h2 : List.Pairwise rowLe
      (((sort_index kb).rows.zip (sort_index ka).rows).map Prod.fst) := by
    rw [hfst]; exact hs
  have hzip := List.pairwise_map.mp h2
  exact List.Pairwise.sublist (List.filter_sublist _) hzip

lemma stackedRows_pairwise (kb ka : KeyedFrame)
    (h : List.Pairwise (fun p q => keyLe p.1.1 q.1.1 = true) (keptPairs kb ka)) :
    List.Pairwise (fun r s => keyLe r.1 s.1 = true) (stackedRows kb ka) := by
  unfold stackedRows
  apply pairwise_keyLe_flatMap (fun p => p.1.1)
  · intro b r hr
    rcases List.mem_cons.mp hr with h1 | h1
    · rw [h1]
    · rcases List.mem_cons.mp h1 with h2 | h2
      · rw [h2]
      · simp at h2
  · exact h

lemma exists_sublist_filterMap {α β : Type} (g : α → β) :
    ∀ (l : List α) (f : α → Option β), (∀ a b, f a = some b → b = g a) →
      ∃ cs : List α, List.Sublist cs l ∧ l.filterMap f = cs.map g := by
  intro l
  induction l with
  | nil => intro f _; exact ⟨[], List.Sublist.refl _, rfl⟩
  | cons a as ih =>
    intro f h
    rcases ih f h with ⟨cs, hsub, heq⟩
    cases hfa : f a with
    | none =>
      refine ⟨cs, List.Sublist.cons a hsub, ?_⟩
      simp [List.filterMap_cons, hfa, heq]
    | some b =>
      have hb : b = g a := h a b hfa
      refine ⟨a :: cs, List.Sublist.cons₂ a hsub, ?_⟩
      simp [List.filterMap_cons, hfa, heq, hb]

end CompareFiles

namespace PdfTables

/-- Invariant of the extraction fold: the accumulated titles are pairwise
distinct and all recorded in the seen-titles set. -/
def TitleInv (st : List String × List (String × RawTable)) : Prop :=
  (st.2.map Prod.fst).Nodup ∧ ∀ t ∈ st.2.map Prod.fst, t ∈ st.1

lemma titleInv_tableStep (pageNum : Nat) (page : Page)
    (st : List String × List (String × RawTable)) (it : Nat × RawTable)
    (h : TitleInv st) : TitleInv (tableStep pageNum page st it) := by
  unfold tableStep
  split
  · exact h
  · dsimp only
    split
    · exact h
    · rename_i hnew
      obtain ⟨hnd, hsub⟩ := h
      constructor
      · simp only [List.map_append, List.map_cons, List.map_nil]
        rw [List.nodup_append]
        refine ⟨hnd, List.nodup_singleton _, ?_⟩
        intro t ht
        simp only [List.mem_singleton]
        intro heq
        exact hnew (heq ▸ hsub t ht)
      · intro t ht
        simp only [List.map_append, List.map_cons, List.map_nil,
          List.mem_append, List.mem_singleton] at ht
        rcases ht with h1 | h1
        · exact List.mem_cons_of_mem _ (hsub t h1)
        · rw [h1]; exact List.mem_cons_self _ _

lemma foldl_preserve {σ β : Type} (P : σ → Prop) (f : σ → β → σ)
    (hf : ∀ s b, P s → P (f s b)) : ∀ (l : List β) (s : σ), P s → P (l.foldl f s) := by
  intro l
  induction l with
  | nil => intro s hs; exact hs
  | cons b bs ih => intro s hs; exact ih _ (hf _ _ hs)

lemma titleInv_pageStep (st : List String × List (String × RawTable))
    (pp : Nat × Page) (h : TitleInv st) : TitleInv (pageStep st pp) := by
  unfold pageStep
  split
  · exact h
  · exact foldl_preserve TitleInv _ (fun s b hs => titleInv_tableStep _ _ s b hs) _ _ h

end PdfTables

namespace PdfJson

lemma setKey_keys (m : List (String × String)) (k v : String) :
    (setKey m k v).map Prod.fst = m.map Prod.fst := by
  unfold setKey
  rw [List.map_map]
  apply List.map_congr_left
  intro p _
  by_cases h : p.1 = k
  · simp [h]
  · simp [h]

end PdfJson

namespace CompareFiles

/-- The key tuple of every row of a DataFrame, in row order (the values
set_index moves into the index). -/
def keyTuples (df : DataFrame) : List (List Cell) :=
  df.rows.map (fun r => KEY_COLS.map (cellAt df.columns r))

/-- The paths load_data_file warns about during one run: each source whose
load came back None, in load order (before, then after). -/
def failPaths (fileOf : String → Source) (tc : TestCase) : List String :=
  (if load_data_file (fileOf tc.beforePath) = none then [tc.beforePath] else [])
    ++ (if load_data_file (fileOf tc.afterPath) = none then [tc.afterPath] else [])

lemma run_reduces (fileOf : String → Source) (tc : TestCase) (dfb dfa : DataFrame)
    (kb ka : KeyedFrame)
    (hb : fileOf tc.beforePath = Source.ok dfb)
    (ha : fileOf tc.afterPath = Source.ok dfa)
    (hlen : dfb.rows.length = dfa.rows.length)
    (hsb : set_index KEY_COLS (stripCols dfb) = some kb)
    (hsa : set_index KEY_COLS (stripCols dfa) = some ka) :
    run_comparison_test fileOf tc =
      (match pandasCompare (sort_index kb) (sort_index ka) with
       | .ok d =>
         match outputRows d with
         | [] => Outcome.noDifferences
         | r :: rs => Outcome.differencesFound (r :: rs)
       | .error _ => Outcome.uncaughtValueError) := by
  unfold run_comparison_test
  rw [hb, ha]
  simp only [load_data_file]
  rw [if_neg (fun hcon => hcon hlen)]
  rw [hsb, hsa]

end CompareFiles

namespace CompareFiles

/-- C1: when the two loaded datasets have different row counts,
run_comparison_test terminates early with the RowCountMismatch outcome
carrying both row counts and both source identifiers (the file basenames
printed at compare_files.py lines 61-64), and no difference records are
computed. -/
theorem row_count_mismatch_short_circuits
    (fileOf : String → Source) (tc : TestCase) (dfb dfa : DataFrame)
    (hb : fileOf tc.beforePath = Source.ok dfb)
    (ha : fileOf tc.afterPath = Source.ok dfa)
    (hne : dfb.rows.length ≠ dfa.rows.length) :
    run_comparison_test fileOf tc
      = Outcome.rowCountMismatch (basename tc.beforePath) dfb.rows.length
          (basename tc.afterPath) dfa.rows.length
    ∧ ∀ rs, run_comparison_test fileOf tc ≠ Outcome.differencesFound rs := by
  have hrun : run_comparison_test fileOf tc
      = Outcome.rowCountMismatch (basename tc.beforePath) dfb.rows.length
          (basename tc.afterPath) dfa.rows.length := by
    unfold run_comparison_test
    rw [hb, ha]
    simp only [load_data_file]
    rw [if_pos (show (stripCols dfb).rows.length ≠ (stripCols dfa).rows.length from hne)]
    rfl
  exact ⟨hrun, fun rs hcon => by rw [hrun] at hcon; exact Outcome.noConfusion hcon⟩

def dfW1b : DataFrame :=
  { columns := ["HQ_CODE", "ID", "MBR_NO"],
    rows := [[some "1", some "1", some "1"], [some "2", some "1", some "1"]] }

def dfW1a : DataFrame :=
  { columns := ["HQ_CODE", "ID", "MBR_NO"],
    rows := [[some "1", some "1", some "1"]] }

def fsW1 : String → Source := fun p =>
  if p = "data/before.txt" then Source.ok dfW1b else Source.ok dfW1a

def tcW1 : TestCase :=
  { name := "t1", beforePath := "data/before.txt", afterPath := "data/after.txt" }

theorem row_count_mismatch_short_circuits_witness :
    run_comparison_test fsW1 tcW1
      = Outcome.rowCountMismatch "before.txt" 2 "after.txt" 1 :=
  (row_count_mismatch_short_circuits fsW1 tcW1 dfW1b dfW1a rfl rfl (by decide)).1

def dfC2b : DataFrame :=
  { columns := ["HQ_CODE", "ID", "MBR_NO", "NAME"],
    rows := [[some "1", some "1", some "1", some "Alice"]] }

def dfC2a : DataFrame :=
  { columns := ["HQ_CODE", "ID", "MBR_NO", "NAME"],
    rows := [[some "1", some "1", some "1", none]] }

def dfC2e : DataFrame :=
  { columns := ["HQ_CODE", "ID", "MBR_NO", "NAME"],
    rows := [[some "1", some "1", some "1", some ""]] }

def fsC2 : String → Source := fun p =>
  if p = "b" then Source.ok dfC2b
  else if p = "a" then Source.ok dfC2a
  else Source.ok dfC2e

def tcC2 : TestCase := { name := "t", beforePath := "b", afterPath := "a" }

def tcC2e : TestCase := { name := "t", beforePath := "b", afterPath := "e" }

/-- C2 (code bug): with a before cell "Alice" and an absent after cell, and
likewise with an empty-string after cell, the rows are flagged as
differing, but the emitted records carry only the key columns -- the field
name and the before/after values are dropped, because the formatter looks
up (column, side) tuple labels in df_diff's flat column index under
align_axis=0 -- so absent and empty string are not preserved (the two runs
produce identical output), contradicting the format the script itself
prints at compare_files.py line 112. -/
theorem diff_records_drop_field_values :
    run_comparison_test fsC2 tcC2
      = Outcome.differencesFound
          ["KEY:HQ_CODE=1\tKEY:ID=1\tKEY:MBR_NO=1",
           "KEY:HQ_CODE=1\tKEY:ID=1\tKEY:MBR_NO=1"]
    ∧ run_comparison_test fsC2 tcC2e
      = Outcome.differencesFound
          ["KEY:HQ_CODE=1\tKEY:ID=1\tKEY:MBR_NO=1",
           "KEY:HQ_CODE=1\tKEY:ID=1\tKEY:MBR_NO=1"]
    ∧ run_comparison_test fsC2 tcC2 = run_comparison_test fsC2 tcC2e := by
  refine ⟨by decide, by decide, by decide⟩

def dfC3b : DataFrame :=
  { columns := ["HQ_CODE", "ID", "MBR_NO", "NAME"],
    rows := [[some "1", some "1", some "1", some "Alice"]] }

def dfC3a : DataFrame :=
  { columns := ["HQ_CODE", "ID", "MBR_NO"],
    rows := [[some "1", some "1", some "1"]] }

def fsC3 : String → Source := fun p =>
  if p = "b" then Source.ok dfC3b else Source.ok dfC3a

def tcC3 : TestCase := { name := "t", beforePath := "b", afterPath := "a" }

/-- C3 counterexample: the before dataset has an extra populated column
NAME absent from the after dataset, row counts match, yet the comparison
does not succeed over the union of columns: DataFrame.compare raises an
uncaught ValueError and no difference record is produced. -/
theorem column_union_counterexample :
    run_comparison_test fsC3 tcC3 = Outcome.uncaughtValueError := by decide

/-- C3 (amended): when the two datasets have equal row counts and valid key
columns but different remaining column sets, the comparison does not
proceed over the union of the columns: DataFrame.compare raises an
uncaught ValueError, the run produces no difference records, and the batch
aborts. -/
theorem column_mismatch_raises_uncaught
    (fileOf : String → Source) (tc : TestCase) (dfb dfa : DataFrame)
    (kb ka : KeyedFrame)
    (hb : fileOf tc.beforePath = Source.ok dfb)
    (ha : fileOf tc.afterPath = Source.ok dfa)
    (hlen : dfb.rows.length = dfa.rows.length)
    (hsb : set_index KEY_COLS (stripCols dfb) = some kb)
    (hsa : set_index KEY_COLS (stripCols dfa) = some ka)
    (hcols : kb.columns ≠ ka.columns) :
    run_comparison_test fileOf tc = Outcome.uncaughtValueError
    ∧ (∀ rs, run_comparison_test fileOf tc ≠ Outcome.differencesFound rs)
    ∧ ∀ rest, runBatch fileOf (tc :: rest) = [Outcome.uncaughtValueError] := by
  have hpc : pandasCompare (sort_index kb) (sort_index ka) = Except.error () := by
    unfold pandasCompare
    rw [if_neg (fun hcon => hcols hcon.1)]
  have hrun := run_reduces fileOf tc dfb dfa kb ka hb ha hlen hsb hsa
  rw [hpc] at hrun
  refine ⟨hrun, fun rs hcon => by rw [hrun] at hcon; exact Outcome.noConfusion hcon, ?_⟩
  intro rest
  have hstep : runBatch fileOf (tc :: rest)
      = match run_comparison_test fileOf tc with
        | .uncaughtValueError => [.uncaughtValueError]
        | o => o :: runBatch fileOf rest := rfl
  rw [hstep, hrun]

theorem column_mismatch_raises_uncaught_witness :
    run_comparison_test fsC3 tcC3 = Outcome.uncaughtValueError :=
  (column_mismatch_raises_uncaught fsC3 tcC3 dfC3b dfC3a
    { columns := ["NAME"], rows := [([some "1", some "1", some "1"], [some "Alice"])] }
    { columns := [], rows := [([some "1", some "1", some "1"], [])] }
    rfl rfl rfl rfl rfl (by decide)).1

def dfDup : DataFrame :=
  { columns := ["HQ_CODE", "ID", "MBR_NO", "NAME"],
    rows := [[some "1", some "1", some "1", some "x"],
             [some "1", some "1", some "1", some "y"]] }

def fsDup : String → Source := fun _ => Source.ok dfDup

def tcDup : TestCase := { name := "t", beforePath := "b", afterPath := "a" }

/-- C4 counterexample: both datasets carry a duplicate key tuple, yet the
comparison does not fail with KeyColumnError: set_index and sort_index
accept duplicate keys and the run completes (here with no differences). -/
theorem duplicate_keys_no_key_column_error :
    ¬ (keyTuples (stripCols dfDup)).Nodup
    ∧ run_comparison_test fsDup tcDup = Outcome.noDifferences
    ∧ run_comparison_test fsDup tcDup ≠ Outcome.keyColumnError KEY_COLS := by
  refine ⟨by decide, by decide, by decide⟩

/-- C4 (amended): when the two datasets have equal row counts and either
side is missing one of the key columns, the comparison fails with the
KeyColumnError outcome naming the configured key columns, and no
difference records are produced; this holds whichever side exhibits the
missing column.  Duplicate key tuples, by contrast, are not detected. -/
theorem missing_key_column_gives_key_column_error
    (fileOf : String → Source) (tc : TestCase) (dfb dfa : DataFrame)
    (hb : fileOf tc.beforePath = Source.ok dfb)
    (ha : fileOf tc.afterPath = Source.ok dfa)
    (hlen : dfb.rows.length = dfa.rows.length)
    (hmiss : (∃ k ∈ KEY_COLS, k ∉ (stripCols dfb).columns)
           ∨ (∃ k ∈ KEY_COLS, k ∉ (stripCols dfa).columns)) :
    run_comparison_test fileOf tc = Outcome.keyColumnError KEY_COLS
    ∧ ∀ rs, run_comparison_test fileOf tc ≠ Outcome.differencesFound rs := by
  have hrun : run_comparison_test fileOf tc = Outcome.keyColumnError KEY_COLS := by
    unfold run_comparison_test
    rw [hb, ha]
    simp only [load_data_file]
    rw [if_neg (fun hcon => hcon hlen)]
    rcases hmiss with ⟨k, hk, hnot⟩ | ⟨k, hk, hnot⟩
    · have hsb : set_index KEY_COLS (stripCols dfb) = none := by
        unfold set_index
        rw [if_neg (fun hall => hnot (hall k hk))]
      rw [hsb]
    · have hsa : set_index KEY_COLS (stripCols dfa) = none := by
        unfold set_index
        rw [if_neg (fun hall => hnot (hall k hk))]
      rw [hsa]
      cases hsb : set_index KEY_COLS (stripCols dfb) <;> rfl
  exact ⟨hrun, fun rs hcon => by rw [hrun] at hcon; exact Outcome.noConfusion hcon⟩

def dfW4b : DataFrame :=
  { columns := ["HQ_CODE", "ID"],
    rows := [[some "1", some "1"]] }

def dfW4a : DataFrame :=
  { columns := ["HQ_CODE", "ID", "MBR_NO"],
    rows := [[some "1", some "1", some "1"]] }

def fsW4 : String → Source := fun p =>
  if p = "b" then Source.ok dfW4b else Source.ok dfW4a

def tcW4 : TestCase := { name := "t", beforePath := "b", afterPath := "a" }

theorem missing_key_column_gives_key_column_error_witness :
    run_comparison_test fsW4 tcW4 = Outcome.keyColumnError KEY_COLS :=
  (missing_key_column_gives_key_column_error fsW4 tcW4 dfW4b dfW4a rfl rfl rfl
    (Or.inl ⟨"MBR_NO", by decide, by decide⟩)).1

end CompareFiles

namespace CompareFiles

/-- C5: for before/after datasets accepted by the row-count precheck whose
aligned frames are identically labeled (the condition under which the
comparison at line 78 runs at all), comparing A to B and comparing B to A
flag the same sequence of (key tuple, field) cells as differing, with the
before and after values swapped between the two runs. -/
theorem diff_detection_symmetric
    (A B : DataFrame) (ka kb : KeyedFrame)
    (hlen : A.rows.length = B.rows.length)
    (hA : set_index KEY_COLS (stripCols A) = some ka)
    (hB : set_index KEY_COLS (stripCols B) = some kb)
    (hc : (sort_index ka).columns = (sort_index kb).columns)
    (hk : (sort_index ka).rows.map Prod.fst = (sort_index kb).rows.map Prod.fst) :
    diffCells (sort_index kb) (sort_index ka)
      = (diffCells (sort_index ka) (sort_index kb)).map
          (fun t => (t.1, t.2.1, t.2.2.2, t.2.2.1)) := by
  unfold diffCells
  rw [← hc]
  exact diffCells_flat_swap (sort_index ka).columns (sort_index ka).rows
    (sort_index kb).rows hk

def AW5 : DataFrame :=
  { columns := ["HQ_CODE", "ID", "MBR_NO", "NAME"],
    rows := [[some "2", some "1", some "1", some "x"],
             [some "1", some "1", some "1", some "y"]] }

def BW5 : DataFrame :=
  { columns := ["HQ_CODE", "ID", "MBR_NO", "NAME"],
    rows := [[some "1", some "1", some "1", some "z"],
             [some "2", some "1", some "1", some "x"]] }

def kaW5 : KeyedFrame :=
  { columns := ["NAME"],
    rows := [([some "2", some "1", some "1"], [some "x"]),
             ([some "1", some "1", some "1"], [some "y"])] }

def kbW5 : KeyedFrame :=
  { columns := ["NAME"],
    rows := [([some "1", some "1", some "1"], [some "z"]),
             ([some "2", some "1", some "1"], [some "x"])] }

theorem diff_detection_symmetric_witness :
    diffCells (sort_index kbW5) (sort_index kaW5)
      = (diffCells (sort_index kaW5) (sort_index kbW5)).map
          (fun t => (t.1, t.2.1, t.2.2.2, t.2.2.1)) :=
  diff_detection_symmetric AW5 BW5 kaW5 kbW5 rfl rfl rfl rfl rfl

/-- C6: comparing a dataset with valid, unique key tuples to itself yields
zero difference records and the distinct success-with-no-differences
outcome, a different constructor from success-with-differences. -/
theorem self_compare_no_differences
    (fileOf : String → Source) (tc : TestCase) (df : DataFrame) (kf : KeyedFrame)
    (hb : fileOf tc.beforePath = Source.ok df)
    (ha : fileOf tc.afterPath = Source.ok df)
    (hs : set_index KEY_COLS (stripCols df) = some kf)
    (hu : (keyTuples (stripCols df)).Nodup)
    (hv : ∀ kt ∈ keyTuples (stripCols df), ∀ c ∈ kt, c.isSome = true) :
    run_comparison_test fileOf tc = Outcome.noDifferences
    ∧ ∀ rs, run_comparison_test fileOf tc ≠ Outcome.differencesFound rs := by
  have hrun0 := run_reduces fileOf tc df df kf kf hb ha rfl hs hs
  rw [pandasCompare_self] at hrun0
  have hrun : run_comparison_test fileOf tc = Outcome.noDifferences := hrun0
  exact ⟨hrun, fun rs hcon => by rw [hrun] at hcon; exact Outcome.noConfusion hcon⟩

def dfW6 : DataFrame :=
  { columns := [" HQ_CODE", "ID", "MBR_NO", "NAME"],
    rows := [[some "1", some "1", some "1", some "a"],
             [some "2", some "1", some "1", some "b"]] }

def kfW6 : KeyedFrame :=
  { columns := ["NAME"],
    rows := [([some "1", some "1", some "1"], [some "a"]),
             ([some "2", some "1", some "1"], [some "b"])] }

def fsW6 : String → Source := fun _ => Source.ok dfW6

def tcW6 : TestCase := { name := "t", beforePath := "x", afterPath := "y" }

theorem self_compare_no_differences_witness :
    run_comparison_test fsW6 tcW6 = Outcome.noDifferences :=
  (self_compare_no_differences fsW6 tcW6 dfW6 kfW6 rfl rfl rfl
    (by decide) (by decide)).1

/-- C7: the rows of the comparison result frame -- and hence the emitted
record lines, one per stacked row in row order -- are ordered by key tuple
ascending (lexicographic over the key columns, with each kept row
contributing its self row and then its other row under the same key), and
the field parts inside one record are drawn from the comparison's columns
in column order (a sublist of the deduplicated df_diff column list). -/
theorem diff_rows_ordered (kb ka : KeyedFrame) (d : DiffFrame)
    (h : pandasCompare (sort_index kb) (sort_index ka) = Except.ok d) :
    List.Pairwise (fun r s => keyLe r.1 s.1 = true) d.rows
    ∧ outputRows d = d.rows.map (fun r => formatDiffRow d.columns r.1 r.2.2)
    ∧ ∀ r ∈ d.rows, ∃ cs : List String, List.Sublist cs d.columns.eraseDups ∧
        fieldParts d.columns r.2.2 = cs.map (fun c =>
          (fieldOutput c
            (seriesGet (d.columns.map PyLabel.str) r.2.2 (PyLabel.pair c "self"))
            (seriesGet (d.columns.map PyLabel.str) r.2.2 (PyLabel.pair c "other"))).getD "") := by
  unfold pandasCompare at h
  split at h
  · rename_i hcond
    injection h with h2
    subst h2
    refine ⟨?_, rfl, ?_⟩
    · exact stackedRows_pairwise _ _ (keptPairs_pairwise kb ka hcond.2)
    · intro r _
      unfold fieldParts
      apply exists_sublist_filterMap
      intro a b hab
      rw [hab]
      rfl
  · exact Except.noConfusion h

def kbW7 : KeyedFrame :=
  { columns := ["NAME"],
    rows := [([some "2", some "1", some "1"], [some "x"]),
             ([some "1", some "1", some "1"], [some "y"])] }

def kaW7 : KeyedFrame :=
  { columns := ["NAME"],
    rows := [([some "1", some "1", some "1"], [some "z"]),
             ([some "2", some "1", some "1"], [some "w"])] }

def dW7 : DiffFrame :=
  { columns := ["NAME"],
    rows := [([some "1", some "1", some "1"], "self", [some "y"]),
             ([some "1", some "1", some "1"], "other", [some "z"]),
             ([some "2", some "1", some "1"], "self", [some "x"]),
             ([some "2", some "1", some "1"], "other", [some "w"])] }

theorem diff_rows_ordered_witness :
    List.Pairwise (fun r s => keyLe r.1 s.1 = true) dW7.rows :=
  (diff_rows_ordered kbW7 kaW7 dW7 rfl).1

/-- C8: when the before or after source is missing or unreadable, the run
ends in the sourceUnavailable outcome naming each failed path; no
comparison is performed, no uncaught fault is thrown, and the batch loop
proceeds to the next job in the job list. -/
theorem missing_source_skips_and_continues
    (fileOf : String → Source) (tc : TestCase) (rest : List TestCase)
    (h : fileOf tc.beforePath = Source.missing ∨ fileOf tc.beforePath = Source.unreadable
       ∨ fileOf tc.afterPath = Source.missing ∨ fileOf tc.afterPath = Source.unreadable) :
    run_comparison_test fileOf tc = Outcome.sourceUnavailable (failPaths fileOf tc)
    ∧ failPaths fileOf tc ≠ []
    ∧ ((fileOf tc.beforePath = Source.missing ∨ fileOf tc.beforePath = Source.unreadable)
        → tc.beforePath ∈ failPaths fileOf tc)
    ∧ ((fileOf tc.afterPath = Source.missing ∨ fileOf tc.afterPath = Source.unreadable)
        → tc.afterPath ∈ failPaths fileOf tc)
    ∧ runBatch fileOf (tc :: rest)
        = Outcome.sourceUnavailable (failPaths fileOf tc) :: runBatch fileOf rest := by
  have hload : ∀ p, fileOf p = Source.missing ∨ fileOf p = Source.unreadable
      → load_data_file (fileOf p) = none := by
    intro p hp
    rcases hp with hp | hp <;> rw [hp] <;> rfl
  have hsome : ∀ p df, load_data_file (fileOf p) = some df
      → ¬ (fileOf p = Source.missing ∨ fileOf p = Source.unreadable) := by
    intro p df hp hcon
    rw [hload p hcon] at hp
    exact Option.noConfusion hp
  have hbatch : runBatch fileOf (tc :: rest)
      = match run_comparison_test fileOf tc with
        | .uncaughtValueError => [.uncaughtValueError]
        | o => o :: runBatch fileOf rest := rfl
  cases hb : load_data_file (fileOf tc.beforePath) with
  | none =>
    cases ha : load_data_file (fileOf tc.afterPath) with
    | none =>
      have hfp : failPaths fileOf tc = [tc.beforePath, tc.afterPath] := by
        unfold failPaths
        rw [if_pos hb, if_pos ha]
        rfl
      have hrun : run_comparison_test fileOf tc
          = Outcome.sourceUnavailable (failPaths fileOf tc) := by
        unfold run_comparison_test
        rw [hb, ha, hfp]
      refine ⟨hrun, ?_, ?_, ?_, ?_⟩
      · rw [hfp]; exact fun hcon => List.noConfusion hcon
      · intro _; rw [hfp]; exact List.mem_cons_self _ _
      · intro _; rw [hfp]; exact List.mem_cons_of_mem _ (List.mem_cons_self _ _)
      · rw [hbatch, hrun]
    | some da =>
      have hfp : failPaths fileOf tc = [tc.beforePath] := by
        unfold failPaths
        rw [if_pos hb, if_neg (by rw [ha]; exact fun hcon => Option.noConfusion hcon)]
        rfl
      have hrun : run_comparison_test fileOf tc
          = Outcome.sourceUnavailable (failPaths fileOf tc) := by
        unfold run_comparison_test
        rw [hb, ha, hfp]
      refine ⟨hrun, ?_, ?_, ?_, ?_⟩
      · rw [hfp]; exact fun hcon => List.noConfusion hcon
      · intro _; rw [hfp]; exact List.mem_cons_self _ _
      · intro hcase; exact absurd hcase (hsome _ _ ha)
      · rw [hbatch, hrun]
  | some db =>
    cases ha : load_data_file (fileOf tc.afterPath) with
    | none =>
      have hfp : failPaths fileOf tc = [tc.afterPath] := by
        unfold failPaths
        rw [if_neg (by rw [hb]; exact fun hcon => Option.noConfusion hcon), if_pos ha]
        rfl
      have hrun : run_comparison_test fileOf tc
          = Outcome.sourceUnavailable (failPaths fileOf tc) := by
        unfold run_comparison_test
        rw [hb, ha, hfp]
      refine ⟨hrun, ?_, ?_, ?_, ?_⟩
      · rw [hfp]; exact fun hcon => List.noConfusion hcon
      · intro hcase; exact absurd hcase (hsome _ _ hb)
      · intro _; rw [hfp]; exact List.mem_cons_self _ _
      · rw [hbatch, hrun]
    | some da =>
      exfalso
      rcases h with h1 | h1 | h1 | h1
      · rw [hload tc.beforePath (Or.inl h1)] at hb; exact Option.noConfusion hb
      · rw [hload tc.beforePath (Or.inr h1)] at hb; exact Option.noConfusion hb
      · rw [hload tc.afterPath (Or.inl h1)] at ha; exact Option.noConfusion ha
      · rw [hload tc.afterPath (Or.inr h1)] at ha; exact Option.noConfusion ha

def dfW8 : DataFrame :=
  { columns := ["HQ_CODE", "ID", "MBR_NO", "NAME"],
    rows := [[some "1", some "1", some "1", some "a"]] }

def fsW8 : String → Source := fun p =>
  if p = "missing.txt" then Source.missing else Source.ok dfW8

def tcW8 : TestCase :=
  { name := "j1", beforePath := "missing.txt", afterPath := "after.txt" }

def tcW8b : TestCase :=
  { name := "j2", beforePath := "before.txt", afterPath := "after.txt" }

theorem missing_source_skips_and_continues_witness :
    run_comparison_test fsW8 tcW8 = Outcome.sourceUnavailable (failPaths fsW8 tcW8) :=
  (missing_source_skips_and_continues fsW8 tcW8 [tcW8b] (Or.inl rfl)).1

end CompareFiles

namespace PdfTables

def tblOne : RawTable :=
  { isDf := true, columns := ["T"], rows := [[some "v1"]] }

def tblTwo : RawTable :=
  { isDf := true, columns := ["T"], rows := [[some "v2"], [none]] }

def pgOne : Page := { pageTables := [tblOne], detectedTops := [], lineTexts := [] }

def pgTwo : Page := { pageTables := [tblTwo], detectedTops := [], lineTexts := [] }

/-- C9: for every input document, the extracted table list has pairwise
distinct titles, and a detected table whose inferred title equals the
title of a previously seen table in the same document is silently dropped
even when it lies on a different page: here the page-2 table (distinct
data, same inferred title "T") is absent from the result. -/
theorem extract_tables_titles_nodup :
    (∀ pages : List Page, ((extract_tables pages).map Prod.fst).Nodup)
    ∧ extract_tables [pgOne, pgTwo] = [("T", dropnaAll tblOne)] := by
  constructor
  · intro pages
    have hinv : TitleInv ((pages.enumFrom 1).foldl pageStep ([], [])) := by
      apply foldl_preserve TitleInv pageStep (fun s b hs => titleInv_pageStep s b hs)
      exact ⟨List.nodup_nil, fun t ht => absurd ht (List.not_mem_nil t)⟩
    exact hinv.1
  · rfl

end PdfTables

namespace PdfJson

/-- C10: extract_metadata always returns normally with a mapping whose
keys are exactly AUDIT ID, NCPDP, Date, Address and Subject in that order
(each value a string by construction), for every document -- including one
with no pages, pages without extractable text, or one whose extraction
raises, the last returning the initialized mapping unchanged. -/
theorem extract_metadata_total_five_keys :
    (∀ (rx : RegexOracle) (doc : OpenResult),
      (extract_metadata rx doc).map Prod.fst
        = ["AUDIT ID", "NCPDP", "Date", "Address", "Subject"])
    ∧ (∀ rx : RegexOracle, extract_metadata rx OpenResult.raises = emptyMetadata) := by
  constructor
  · intro rx doc
    cases doc with
    | raises => rfl
    | pages texts =>
      simp only [extract_metadata]
      by_cases h : texts.isEmpty = true
      · rw [if_pos h]
        rfl
      · rw [if_neg h]
        cases h1 : rx.addrSearch (String.intercalate "\n" (texts.map (fun t => t.getD ""))) <;>
          cases h2 : rx.subjSearch (String.intercalate "\n" (texts.map (fun t => t.getD ""))) <;>
            simp only [h1, h2, setKey_keys] <;> rfl
  · intro rx
    rfl

end PdfJson
